import Mathlib

/-!
Verification of the BuySmart requirement-scraping core
(`backend/app/services/scraper.py`, `backend/app/api/requirements.py`,
`backend/app/models/database.py`).

Shallow embedding conventions:
* Timestamps are `Nat` seconds; `hoursToSeconds` converts the `timedelta(hours=n)`
  constants of the source.
* Prices and budget bounds (`Float` columns) are modelled as `Int`; `None` values
  of nullable columns and of the scraper's `price` field are `Option`.
* The database session is a pure state `DB` (list of requirement rows and listing
  rows); each Python function becomes a state transformer.  The session is created
  with `autoflush=False`, so duplicate checks during one trigger run only see the
  rows committed before the run: the dedup filter consults the pre-run listing set.
* A Python exception that is caught inside a function (all exceptions in
  `trigger_scraping_for_requirement` are) is reflected in the returned state;
  the embedding being a total function expresses that nothing propagates to the
  caller.  The scraper collaborator plus the persistence steps 3-5 are abstracted
  by `ScrapeOutcome`: `success candidates` when `search_listings` returns a list
  and persistence commits, `failure` when any of those steps raises.
-/

namespace BuySmart

/-- One candidate dictionary produced by `ScraperService._extract_listing_data`
(and consumed via `.get` by the trigger).  `price` is `Option` because
`_extract_price` returns `None` for absent or unparseable price text;
`olx_id` models `listing_data.get("olx_id", "")` (the scraper never sets the
key, so it is `""` for real scraper output, but the trigger reads it with a
default and the embedding keeps the field). -/
structure ListingData where
  olx_id : String
  title : String
  price : Option Int
  location : String
deriving DecidableEq

/-- A row of the `requirements` table (`app/models/database.py`), restricted to
the columns the scraping core reads or writes. -/
structure Requirement where
  id : String
  user_id : String
  product_query : String
  budget_min : Option Int
  budget_max : Option Int
  deal_breakers : List String
  status : String
  scraping_status : String
  last_scraped_at : Option Nat
  next_scrape_at : Option Nat
  total_listings_found : Nat
  matching_listings_count : Nat
deriving DecidableEq

/-- A row of the `listings` table, restricted to the columns the trigger writes. -/
structure ListingRow where
  requirement_id : String
  olx_id : String
  title : String
  price : Option Int
  location : String
  status : String
deriving DecidableEq

/-- The database state seen by the scraping core. -/
structure DB where
  requirements : List Requirement
  listings : List ListingRow
deriving DecidableEq

/-- `timedelta(hours=h)` in seconds. -/
def hoursToSeconds (h : Nat) : Nat := h * 3600

/-- `needle` starts the list `hay` (character-level prefix test). -/
def charsStartWith : List Char → List Char → Bool
  | [], _ => true
  | _ :: _, [] => false
  | n :: ns, h :: hs => n == h && charsStartWith ns hs

/-- `needle` occurs contiguously inside `hay` (character-level). -/
def charsContain (needle : List Char) : List Char → Bool
  | [] => charsStartWith needle []
  | c :: rest => charsStartWith needle (c :: rest) || charsContain needle rest

/-- The Python substring test `sub in s`. -/
def pyIn (sub s : String) : Bool := charsContain sub.data s.data

/-- Python `str.lower()` on the basic-latin strings this service handles:
character-wise lowering of the string's characters. -/
def pyLower (s : String) : String := ⟨s.data.map Char.toLower⟩

/-- Embedding of `_is_listing_matching_requirement` (scraper.py lines 358-391).

The body runs under `try/except: return False`.  `price < budget_min` and
`price > budget_max` raise `TypeError` when either side is `None`, so any
`None` among price / budget_min / budget_max (the latter only when it is
reached after `price < budget_min` is `False`) yields `False`; the `match`
branches below reproduce exactly the evaluation order, including the
short-circuit of `or`.  The deal-breaker loop lowercases the title once and
each keyword, testing Python `in` (substring). -/
def isListingMatchingRequirement (listing : ListingData) (req : Requirement) : Bool :=
  match listing.price, req.budget_min with
  | some price, some bmin =>
    if price < bmin then false
    else
      match req.budget_max with
      | some bmax =>
        if price > bmax then false
        else if req.deal_breakers.any (fun d => pyIn (pyLower d) (pyLower listing.title)) then
          false
        else
          true
      | none => false
  | _, _ => false

/-- Outcome of steps 3-5 of one trigger run: the scraper collaborator either
returns a candidate list (and the run's writes commit), or some step raises. -/
inductive ScrapeOutcome where
  | success (candidates : List ListingData)
  | failure
deriving DecidableEq

/-- `db.query(Requirement).filter(Requirement.id == requirement_id).first()`. -/
def findRequirement (db : DB) (reqId : String) : Option Requirement :=
  db.requirements.find? (fun r => r.id == reqId)

/-- In-place mutation of the ORM requirement object with the given id,
followed by `db.commit()`. -/
def updateReq (db : DB) (reqId : String) (f : Requirement → Requirement) : DB :=
  { db with requirements := db.requirements.map (fun r => if r.id == reqId then f r else r) }

/-- The `Listing(...)` constructor call of the trigger's save loop
(scraper.py lines 317-325). -/
def saveListingRow (reqId : String) (l : ListingData) : ListingRow :=
  { requirement_id := reqId
    olx_id := l.olx_id
    title := l.title
    price := l.price
    location := l.location
    status := "active" }

/-- The save loop of the trigger (scraper.py lines 307-331): for each matching
candidate, query for an existing row with the same `(olx_id, requirement_id)`
pair and `db.add` a new row only when none exists.  With `autoflush=False`
the existence query sees only `committed`, the listing rows present when the
run started. -/
def newMatchingRows (reqId : String) (committed : List ListingRow)
    (matching : List ListingData) : List ListingRow :=
  (matching.filter (fun l =>
      !(committed.any (fun row => row.olx_id == l.olx_id && row.requirement_id == reqId)))).map
    (saveListingRow reqId)

/-- Embedding of `trigger_scraping_for_requirement` (scraper.py lines 263-355).

`startTime` is the `datetime.utcnow()` of the initial in-progress write
(line 280) and `endTime` the one of the completion writes (lines 337-338).
On `failure` the outer `except` block sets `scraping_status = "failed"` and
commits; no other field is touched there (in particular `next_scrape_at` is
left as it was).  The function is total: every exception of the source is
caught inside it. -/
def triggerScrapingForRequirement (reqId : String) (outcome : ScrapeOutcome)
    (startTime endTime : Nat) (db : DB) : DB :=
  match findRequirement db reqId with
  | none => db
  | some req =>
    let db1 := updateReq db reqId (fun r =>
      { r with scraping_status := "in_progress", last_scraped_at := some startTime })
    match outcome with
    | .failure =>
      updateReq db1 reqId (fun r => { r with scraping_status := "failed" })
    | .success candidates =>
      let matching := candidates.filter (fun l => isListingMatchingRequirement l req)
      let db2 := { db1 with listings := db1.listings ++ newMatchingRows reqId db1.listings matching }
      updateReq db2 reqId (fun r =>
        { r with
          total_listings_found := candidates.length
          matching_listings_count := matching.length
          scraping_status := "completed"
          last_scraped_at := some endTime
          next_scrape_at := some (endTime + hoursToSeconds 24) })

/-- The WHERE clause of `schedule_periodic_scraping` (scraper.py lines 403-406):
`status == "active" AND next_scrape_at <= now`.  A SQL comparison against a
NULL `next_scrape_at` is not satisfied. -/
def isDueRequirement (now : Nat) (r : Requirement) : Bool :=
  r.status == "active" &&
    match r.next_scrape_at with
    | some t => t ≤ now
    | none => false

/-- Embedding of one pass of `schedule_periodic_scraping` (scraper.py lines
394-414): query the due requirements once, then invoke the trigger
sequentially for each.  The second component records the sequence of
requirement ids the pass invoked the trigger on; `oracle` supplies each
invocation's scrape outcome. -/
def schedulePeriodicScraping (now : Nat) (oracle : String → ScrapeOutcome)
    (startTime endTime : Nat) (db : DB) : DB × List String :=
  let due := db.requirements.filter (isDueRequirement now)
  (due.foldl (fun acc r => triggerScrapingForRequirement r.id (oracle r.id) startTime endTime acc) db,
   due.map (fun r => r.id))

/-- The fields of `RequirementUpdate` (models/schemas.py lines 66-74) that the
scraping core can be affected by; `none` means the field was not provided
(`exclude_unset`).  The schema has no `scraping_status` or `next_scrape_at`
field, so user updates cannot write those columns directly. -/
structure RequirementUpdate where
  product_query : Option String
  budget_min : Option Int
  budget_max : Option Int
  deal_breakers : Option (List String)
  status : Option String
deriving DecidableEq

/-- The `setattr` loop of `update_requirement` (requirements.py lines 184-186). -/
def applyUpdateFields (u : RequirementUpdate) (r : Requirement) : Requirement :=
  { r with
    product_query := u.product_query.getD r.product_query
    budget_min := match u.budget_min with | some v => some v | none => r.budget_min
    budget_max := match u.budget_max with | some v => some v | none => r.budget_max
    deal_breakers := u.deal_breakers.getD r.deal_breakers
    status := u.status.getD r.status }

/-- The requirement row built by `create_requirement` (requirements.py lines
24-43): `scraping_status = "pending"`, `next_scrape_at = utcnow() + 24h`,
lifecycle status from the column default `"active"`, counters from the
column defaults `0`. -/
def createRequirement (newId userId productQuery : String)
    (budgetMin budgetMax : Option Int) (dealBreakers : List String) (now : Nat) : Requirement :=
  { id := newId
    user_id := userId
    product_query := productQuery
    budget_min := budgetMin
    budget_max := budgetMax
    deal_breakers := dealBreakers
    status := "active"
    scraping_status := "pending"
    last_scraped_at := none
    next_scrape_at := some (now + hoursToSeconds 24)
    total_listings_found := 0
    matching_listings_count := 0 }

/-- Embedding of `update_requirement` (requirements.py lines 164-200) on the
loaded row: apply the provided fields, then the un-pause branch (lines
189-191): when the update sets lifecycle status `"active"` and the row's
scraping status is `"paused"`, set `scraping_status = "pending"` and
`next_scrape_at = utcnow() + 24h`. -/
def updateRequirement (u : RequirementUpdate) (now : Nat) (r : Requirement) : Requirement :=
  let r1 := applyUpdateFields u r
  if u.status == some "active" && r1.scraping_status == "paused" then
    { r1 with scraping_status := "pending", next_scrape_at := some (now + hoursToSeconds 24) }
  else r1

/-- The writes of the manual `POST /{id}/trigger-scraping` endpoint
(requirements.py lines 267-270) on the loaded row. -/
def triggerScrapingEndpointUpdate (now : Nat) (r : Requirement) : Requirement :=
  { r with scraping_status := "pending", next_scrape_at := some (now + hoursToSeconds 24) }

/-- The state-machine invariant of the spec: a requirement is never left with
`scraping_status = "pending"` and a null `next_scrape_at`. -/
def scrapeInvariant (r : Requirement) : Prop :=
  r.scraping_status = "pending" → r.next_scrape_at ≠ none

/-- Number of listing rows with the given `(olx_id, requirement_id)` pair. -/
def countPair (rows : List ListingRow) (olx reqId : String) : Nat :=
  (rows.filter (fun row => row.olx_id == olx && row.requirement_id == reqId)).length

/-! Concrete fixtures used by the scenario theorem and the witnesses. -/

/-- A stored requirement: iPhone 12, budget 30000-50000, deal-breaker "cracked". -/
def reqFix : Requirement :=
  { id := "r1"
    user_id := "u1"
    product_query := "iPhone 12"
    budget_min := some 30000
    budget_max := some 50000
    deal_breakers := ["cracked"]
    status := "active"
    scraping_status := "pending"
    last_scraped_at := none
    next_scrape_at := some 500
    total_listings_found := 0
    matching_listings_count := 0 }

/-- A one-requirement store with no listings yet. -/
def dbFix : DB := { requirements := [reqFix], listings := [] }

/-- A candidate inside the budget with a clean title. -/
def candOk : ListingData :=
  { olx_id := "x1", title := "iPhone 12 128GB", price := some 35000, location := "Mumbai" }

/-- A candidate whose price text did not parse (`_extract_price` returned `None`). -/
def candNoPrice : ListingData :=
  { olx_id := "x2", title := "iPhone 12 64GB", price := none, location := "Pune" }

/-- A candidate priced below the budget. -/
def candCheap : ListingData :=
  { olx_id := "a1", title := "iPhone 12 64GB", price := some 25000, location := "Mumbai" }

/-- A candidate inside the budget whose title carries the deal-breaker. -/
def candCracked : ListingData :=
  { olx_id := "c1", title := "cracked screen iPhone 12", price := some 40000, location := "Mumbai" }

/-- A requirement whose scraping status is `"paused"`, ready for un-pausing. -/
def reqPaused : Requirement :=
  { reqFix with id := "r2", scraping_status := "paused", next_scrape_at := none, status := "paused" }

/-- A user update that only sets lifecycle status back to `"active"`. -/
def updUnpause : RequirementUpdate :=
  { product_query := none, budget_min := none, budget_max := none,
    deal_breakers := none, status := some "active" }

/-- A requirement due at time 1000 (active, `next_scrape_at = 100`). -/
def reqDue : Requirement := { reqFix with id := "due1", next_scrape_at := some 100 }

/-- A requirement not yet due at time 1000 (active, `next_scrape_at = 5000`). -/
def reqIdle : Requirement := { reqFix with id := "idle1", next_scrape_at := some 5000 }

/-- A two-requirement store for the scheduler pass. -/
def dbSched : DB := { requirements := [reqDue, reqIdle], listings := [] }

/-! Helper lemmas about the embedded operations. -/

theorem find_map_update (l : List Requirement) (i : String) (f : Requirement → Requirement)
    (hf : ∀ r, (f r).id = r.id) :
    (l.map (fun r => if r.id == i then f r else r)).find? (fun r => r.id == i)
      = (l.find? (fun r => r.id == i)).map f := by
  induction l with
  | nil => rfl
  | cons a t ih =>
    by_cases h : a.id = i
    · have ha : (a.id == i) = true := by simpa using h
      simp only [List.map_cons, ha, if_true]
      rw [List.find?_cons_of_pos _ (by simpa [hf] using h),
        List.find?_cons_of_pos _ (by simpa using h)]
      rfl
    · have ha : (a.id == i) = false := by simpa using h
      simp only [List.map_cons, ha, if_false, Bool.false_eq_true]
      rw [List.find?_cons_of_neg _ (by simpa using h),
        List.find?_cons_of_neg _ (by simpa using h)]
      exact ih

theorem findRequirement_updateReq (db : DB) (i : String) (f : Requirement → Requirement)
    (hf : ∀ r, (f r).id = r.id) :
    findRequirement (updateReq db i f) i = (findRequirement db i).map f :=
  find_map_update db.requirements i f hf

theorem trigger_not_found (db : DB) (reqId : String) (outcome : ScrapeOutcome)
    (s e : Nat) (hfind : findRequirement db reqId = none) :
    triggerScrapingForRequirement reqId outcome s e db = db := by
  unfold triggerScrapingForRequirement
  rw [hfind]

theorem trigger_failure_find (db : DB) (reqId : String) (req : Requirement) (s e : Nat)
    (hfind : findRequirement db reqId = some req) :
    findRequirement (triggerScrapingForRequirement reqId .failure s e db) reqId
      = some { req with scraping_status := "failed", last_scraped_at := some s } := by
  have hfind' : db.requirements.find? (fun r => r.id == reqId) = some req := hfind
  simp only [triggerScrapingForRequirement, hfind]
  simp only [findRequirement, updateReq]
  rw [find_map_update, find_map_update, hfind']
  · rfl
  · intro r; rfl
  · intro r; rfl

theorem trigger_success_find (db : DB) (reqId : String) (req : Requirement)
    (cands : List ListingData) (s e : Nat)
    (hfind : findRequirement db reqId = some req) :
    findRequirement (triggerScrapingForRequirement reqId (.success cands) s e db) reqId
      = some { req with
          scraping_status := "completed"
          last_scraped_at := some e
          total_listings_found := cands.length
          matching_listings_count :=
            (cands.filter (fun l => isListingMatchingRequirement l req)).length
          next_scrape_at := some (e + hoursToSeconds 24) } := by
  have hfind' : db.requirements.find? (fun r => r.id == reqId) = some req := hfind
  simp only [triggerScrapingForRequirement, hfind]
  simp only [findRequirement, updateReq]
  rw [find_map_update, find_map_update, hfind']
  · rfl
  · intro r; rfl
  · intro r; rfl

theorem trigger_failure_listings (db : DB) (reqId : String) (s e : Nat) :
    (triggerScrapingForRequirement reqId .failure s e db).listings = db.listings := by
  unfold triggerScrapingForRequirement
  cases hfind : findRequirement db reqId with
  | none => rfl
  | some req => rfl

theorem trigger_success_listings (db : DB) (reqId : String) (req : Requirement)
    (cands : List ListingData) (s e : Nat)
    (hfind : findRequirement db reqId = some req) :
    (triggerScrapingForRequirement reqId (.success cands) s e db).listings
      = db.listings ++ newMatchingRows reqId db.listings
          (cands.filter (fun l => isListingMatchingRequirement l req)) := by
  unfold triggerScrapingForRequirement
  rw [hfind]
  rfl

theorem mem_newMatchingRows {row : ListingRow} {reqId : String}
    {committed : List ListingRow} {matching : List ListingData}
    (h : row ∈ newMatchingRows reqId committed matching) :
    ∃ c ∈ matching, row = saveListingRow reqId c := by
  unfold newMatchingRows at h
  obtain ⟨c, hc, rfl⟩ := List.mem_map.mp h
  exact ⟨c, (List.mem_filter.mp hc).1, rfl⟩

theorem countPair_append (a b : List ListingRow) (olx rid : String) :
    countPair (a ++ b) olx rid = countPair a olx rid + countPair b olx rid := by
  simp [countPair, List.filter_append]

theorem countPair_eq_zero_of_any_false {committed : List ListingRow} {olx rid : String}
    (h : committed.any (fun row => row.olx_id == olx && row.requirement_id == rid) = false) :
    countPair committed olx rid = 0 := by
  rw [List.any_eq_false] at h
  simp only [countPair, List.length_eq_zero, List.filter_eq_nil_iff]
  exact h

theorem countPair_newRows_single (committed : List ListingRow) (reqId olx rid : String)
    (l : ListingData) :
    countPair (committed ++ newMatchingRows reqId committed [l]) olx rid
      ≤ max (countPair committed olx rid) 1 := by
  rw [countPair_append]
  cases hdup : committed.any (fun row => row.olx_id == l.olx_id && row.requirement_id == reqId) with
  | true =>
    have hrows : newMatchingRows reqId committed [l] = [] := by
      simp [newMatchingRows, hdup]
    rw [hrows]
    simp only [countPair, List.filter_nil, List.length_nil, Nat.add_zero]
    exact le_max_left (countPair committed olx rid) 1
  | false =>
    have hrows : newMatchingRows reqId committed [l] = [saveListingRow reqId l] := by
      simp [newMatchingRows, hdup]
    rw [hrows]
    by_cases hpair : l.olx_id = olx ∧ reqId = rid
    · obtain ⟨h1, h2⟩ := hpair
      subst h1
      subst h2
      have h0 : countPair committed l.olx_id reqId = 0 := countPair_eq_zero_of_any_false hdup
      have h1 : countPair [saveListingRow reqId l] l.olx_id reqId = 1 := by
        simp [countPair, saveListingRow]
      rw [h0, h1]
      exact le_max_right 0 1
    · have h1 : countPair [saveListingRow reqId l] olx rid = 0 := by
        by_cases holx : l.olx_id = olx
        · have hrid : reqId ≠ rid := fun hr => hpair ⟨holx, hr⟩
          simp [countPair, saveListingRow, beq_iff_eq, holx, hrid]
        · simp [countPair, saveListingRow, beq_iff_eq, holx]
      rw [h1, Nat.add_zero]
      exact le_max_left (countPair committed olx rid) 1

theorem countPair_trigger_single (db : DB) (reqId : String) (l : ListingData)
    (s e : Nat) (olx rid : String) :
    countPair (triggerScrapingForRequirement reqId (.success [l]) s e db).listings olx rid
      ≤ max (countPair db.listings olx rid) 1 := by
  cases hfind : findRequirement db reqId with
  | none =>
    rw [trigger_not_found db reqId _ s e hfind]
    exact le_max_left _ _
  | some req =>
    rw [trigger_success_listings db reqId req [l] s e hfind]
    cases hm : isListingMatchingRequirement l req with
    | true =>
      have hf : List.filter (fun x => isListingMatchingRequirement x req) [l] = [l] := by
        simp [hm]
      rw [hf]
      exact countPair_newRows_single db.listings reqId olx rid l
    | false =>
      have hf : List.filter (fun x => isListingMatchingRequirement x req) [l] = [] := by
        simp [hm]
      rw [hf]
      have hrows : newMatchingRows reqId db.listings [] = [] := rfl
      rw [hrows]
      simp only [countPair, List.append_nil]
      exact le_max_left (countPair db.listings olx rid) 1

theorem schedule_trace (db : DB) (now : Nat) (oracle : String → ScrapeOutcome) (s e : Nat) :
    (schedulePeriodicScraping now oracle s e db).2
      = (db.requirements.filter (isDueRequirement now)).map (fun r => r.id) := rfl

/-! The claims. -/

/-- C1: the spec demands that a failed scrape attempt leave
`scraping_status = "failed"` AND `next_scrape_at = failure time + 1 hour`.
The trigger's `except` block (scraper.py lines 346-353) only sets
`scraping_status = "failed"`: `next_scrape_at` keeps its prior value (here
`some 500`), which differs from failure time + 1 hour.  The repository's own
`Requirement.update_scraping_status` helper (models/requirement.py lines
58-60, "Retry in 1 hour on failure") documents the intended retry bump, but
the trigger never calls it — a code bug.  The no-raise and failed-status
parts do hold (the embedding is a total function and the status is
`"failed"`). -/
theorem trigger_failure_keeps_old_next_scrape :
    (findRequirement (triggerScrapingForRequirement "r1" .failure 1000 2000 dbFix) "r1").map
        (fun q => (q.scraping_status, q.next_scrape_at, q.last_scraped_at))
      = some ("failed", some 500, some 1000)
    ∧ (500 : Nat) ≠ 1000 + hoursToSeconds 1 := by
  constructor
  · decide
  · decide

/-- C2: a successful trigger run leaves the requirement with
`scraping_status = "completed"`, `last_scraped_at` = completion time,
`total_listings_found` = number of candidates of this pass,
`matching_listings_count` = number of candidates satisfying the matching
predicate in this pass, and `next_scrape_at` = `last_scraped_at` + 24 hours. -/
theorem trigger_success_state (db : DB) (reqId : String) (req : Requirement)
    (cands : List ListingData) (s e : Nat)
    (hfind : findRequirement db reqId = some req) :
    ∃ req1,
      findRequirement (triggerScrapingForRequirement reqId (.success cands) s e db) reqId
          = some req1
        ∧ req1.scraping_status = "completed"
        ∧ req1.last_scraped_at = some e
        ∧ req1.total_listings_found = cands.length
        ∧ req1.matching_listings_count
            = (cands.filter (fun l => isListingMatchingRequirement l req)).length
        ∧ req1.next_scrape_at = some (e + hoursToSeconds 24)
        ∧ ∃ t, req1.last_scraped_at = some t
            ∧ req1.next_scrape_at = some (t + hoursToSeconds 24) :=
  ⟨_, trigger_success_find db reqId req cands s e hfind,
    rfl, rfl, rfl, rfl, rfl, e, rfl, rfl⟩

/-- Witness for C2 at a concrete store and candidate list. -/
theorem trigger_success_state_witness :
    (findRequirement (triggerScrapingForRequirement "r1" (.success [candOk]) 100 200 dbFix)
        "r1").map (fun q => q.scraping_status) = some "completed" := by
  obtain ⟨req1, hfind1, hstatus, _⟩ :=
    trigger_success_state dbFix "r1" reqFix [candOk] 100 200 (by decide)
  rw [hfind1]
  simpa using hstatus

/-- C3: with both budget bounds set (they are non-nullable columns of the
model the trigger uses), a candidate matches iff its price is present and
within `[budget_min, budget_max]` and its lowercased title contains no
lowercased deal-breaker keyword; a candidate failing the predicate is
excluded from the matching list counted by `matching_listings_count` and
every row the trigger persists stems from a candidate satisfying the
predicate. -/
theorem matching_predicate_iff_and_excluded (l : ListingData) (r : Requirement) (lo hi : Int)
    (hmin : r.budget_min = some lo) (hmax : r.budget_max = some hi) :
    (isListingMatchingRequirement l r = true ↔
        (∃ p, l.price = some p ∧ lo ≤ p ∧ p ≤ hi)
        ∧ ∀ d ∈ r.deal_breakers, pyIn (pyLower d) (pyLower l.title) = false)
    ∧ ∀ (db : DB) (reqId : String) (cands : List ListingData) (s e : Nat),
        findRequirement db reqId = some r →
        isListingMatchingRequirement l r = false →
        (l ∉ cands.filter (fun c => isListingMatchingRequirement c r)
          ∧ (findRequirement (triggerScrapingForRequirement reqId (.success cands) s e db)
                reqId).map (fun q => q.matching_listings_count)
              = some (cands.filter (fun c => isListingMatchingRequirement c r)).length
          ∧ ∀ row ∈ (triggerScrapingForRequirement reqId (.success cands) s e db).listings,
              row ∈ db.listings ∨
                ∃ c ∈ cands, isListingMatchingRequirement c r = true
                  ∧ row = saveListingRow reqId c) := by
  constructor
  · cases hp : l.price with
    | none =>
      simp [isListingMatchingRequirement, hp, hmin, hmax]
    | some p =>
      constructor
      · intro h
        by_cases h1 : p < lo
        · simp [isListingMatchingRequirement, hp, hmin, hmax, h1] at h
        by_cases h2 : p > hi
        · simp [isListingMatchingRequirement, hp, hmin, hmax, h1, h2] at h
        cases hany : r.deal_breakers.any (fun d => pyIn (pyLower d) (pyLower l.title)) with
        | true => simp [isListingMatchingRequirement, hp, hmin, hmax, h1, h2, hany] at h
        | false =>
          refine ⟨⟨p, rfl, by omega, by omega⟩, ?_⟩
          intro d hd
          have hne := List.any_eq_false.mp hany d hd
          exact Bool.eq_false_iff.mpr hne
      · rintro ⟨⟨p', hp', hlo, hhi⟩, hdb⟩
        injection hp' with hpe
        subst hpe
        have h1 : ¬p < lo := by omega
        have h2 : ¬p > hi := by omega
        have hany : r.deal_breakers.any (fun d => pyIn (pyLower d) (pyLower l.title)) = false :=
          List.any_eq_false.mpr (fun d hd => by rw [hdb d hd]; simp)
        simp [isListingMatchingRequirement, hp, hmin, hmax, h1, h2, hany]
  · intro db reqId cands s e hfind hnot
    refine ⟨?_, ?_, ?_⟩
    · intro hmem
      have hval := (List.mem_filter.mp hmem).2
      rw [hnot] at hval
      exact absurd hval (by simp)
    · rw [trigger_success_find db reqId r cands s e hfind]
      rfl
    · intro row hrow
      rw [trigger_success_listings db reqId r cands s e hfind] at hrow
      rcases List.mem_append.mp hrow with h | h
      · exact Or.inl h
      · obtain ⟨c, hc, rfl⟩ := mem_newMatchingRows h
        have hcf := List.mem_filter.mp hc
        exact Or.inr ⟨c, hcf.1, hcf.2, rfl⟩

/-- Witness for C3: the in-budget clean-titled candidate is matching. -/
theorem matching_predicate_witness :
    isListingMatchingRequirement candOk reqFix = true :=
  (matching_predicate_iff_and_excluded candOk reqFix 30000 50000 rfl rfl).1.mpr
    ⟨⟨35000, rfl, by decide, by decide⟩, by decide⟩

/-- C4: on the scenario requirement (query "iPhone 12", budget 30000-50000,
deal-breaker "cracked") with candidates priced 25000, 35000 and a
"cracked screen iPhone 12" at 40000, exactly the 35000 candidate matches and
a successful run ends with `total_listings_found = 3` and
`matching_listings_count = 1`. -/
theorem scenario_iphone12 :
    ([candCheap, candOk, candCracked].filter
        (fun l => isListingMatchingRequirement l reqFix)) = [candOk]
    ∧ (findRequirement
          (triggerScrapingForRequirement "r1"
            (.success [candCheap, candOk, candCracked]) 100 200 dbFix) "r1").map
        (fun q => (q.total_listings_found, q.matching_listings_count, q.scraping_status))
      = some (3, 1, "completed") := by
  constructor
  · decide
  · decide

/-- C5: triggering a requirement id absent from the store returns the store
unchanged (no requirement or listing row created or modified); the embedding
being total reflects that no exception escapes. -/
theorem trigger_missing_requirement_noop (db : DB) (reqId : String)
    (outcome : ScrapeOutcome) (s e : Nat)
    (hfind : findRequirement db reqId = none) :
    triggerScrapingForRequirement reqId outcome s e db = db :=
  trigger_not_found db reqId outcome s e hfind

/-- Witness for C5 on a concrete store and an id not present in it. -/
theorem trigger_missing_requirement_noop_witness :
    triggerScrapingForRequirement "zzz" .failure 0 0 dbFix = dbFix :=
  trigger_missing_requirement_noop dbFix "zzz" .failure 0 0 (by decide)

/-- C6: starting from a store with no row for the pair
`(external id, requirement id)`, running the trigger twice with the scraper
returning a candidate carrying that external id both times leaves at most one
listing row for the pair: the second run skips the duplicate. -/
theorem trigger_twice_skips_duplicate (db : DB) (reqId : String) (l1 l2 : ListingData)
    (s1 e1 s2 e2 : Nat) (_same_ext : l2.olx_id = l1.olx_id)
    (h0 : countPair db.listings l1.olx_id reqId = 0) :
    countPair
      ((triggerScrapingForRequirement reqId (.success [l2]) s2 e2
          (triggerScrapingForRequirement reqId (.success [l1]) s1 e1 db)).listings)
      l1.olx_id reqId ≤ 1 := by
  have h1 := countPair_trigger_single db reqId l1 s1 e1 l1.olx_id reqId
  rw [h0] at h1
  have h2 := countPair_trigger_single
    (triggerScrapingForRequirement reqId (.success [l1]) s1 e1 db) reqId l2 s2 e2
    l1.olx_id reqId
  calc countPair _ l1.olx_id reqId
      ≤ max (countPair (triggerScrapingForRequirement reqId (.success [l1]) s1 e1 db).listings
          l1.olx_id reqId) 1 := h2
    _ ≤ 1 := max_le (le_trans h1 (by simp)) (le_refl 1)

/-- Witness for C6 on a concrete store and candidate. -/
theorem trigger_twice_skips_duplicate_witness :
    countPair
      ((triggerScrapingForRequirement "r1" (.success [candOk]) 30 40
          (triggerScrapingForRequirement "r1" (.success [candOk]) 10 20 dbFix)).listings)
      candOk.olx_id "r1" ≤ 1 :=
  trigger_twice_skips_duplicate dbFix "r1" candOk candOk 10 20 30 40 rfl (by decide)

/-- C7: each operation that sets `scraping_status` to `"pending"` (requirement
creation, the un-pause branch of user update, the manual trigger endpoint)
also sets `next_scrape_at`; none leaves a requirement pending with a null
`next_scrape_at`, and the update preserves the invariant when it does not
enter the un-pause branch. -/
theorem scraping_status_pending_invariant :
    (∀ (newId userId pq : String) (bmin bmax : Option Int) (dbs : List String) (now : Nat),
        scrapeInvariant (createRequirement newId userId pq bmin bmax dbs now))
    ∧ (∀ (u : RequirementUpdate) (now : Nat) (r : Requirement),
        scrapeInvariant r → scrapeInvariant (updateRequirement u now r))
    ∧ (∀ (now : Nat) (r : Requirement),
        scrapeInvariant (triggerScrapingEndpointUpdate now r)) := by
  refine ⟨?_, ?_, ?_⟩
  · intro newId userId pq bmin bmax dbs now hpend
    simp [createRequirement]
  · intro u now r hinv
    unfold updateRequirement scrapeInvariant
    by_cases hb : (u.status == some "active"
        && (applyUpdateFields u r).scraping_status == "paused") = true
    · rw [if_pos hb]
      intro _hpend
      simp
    · rw [if_neg hb]
      intro hpend
      have h1 : (applyUpdateFields u r).scraping_status = r.scraping_status := rfl
      have h2 : (applyUpdateFields u r).next_scrape_at = r.next_scrape_at := rfl
      rw [h2]
      exact hinv (h1 ▸ hpend)
  · intro now r hpend
    simp [triggerScrapingEndpointUpdate]

/-- Witness for C7: un-pausing a paused requirement yields a non-null
`next_scrape_at`. -/
theorem scraping_status_pending_invariant_witness :
    (updateRequirement updUnpause 5 reqPaused).next_scrape_at ≠ none :=
  (scraping_status_pending_invariant.2.1 updUnpause 5 reqPaused
    (fun h => absurd h (by decide))) (by decide)

/-- C8: one scheduler pass invokes the trigger exactly once for every stored
requirement that is active with an elapsed `next_scrape_at`, zero times for
every other stored requirement, and every invocation of the pass belongs to
such a due requirement (requirement ids are unique, being primary keys). -/
theorem scheduler_pass_triggers_due_exactly_once (db : DB) (now : Nat)
    (oracle : String → ScrapeOutcome) (s e : Nat)
    (hnodup : (db.requirements.map (fun r => r.id)).Nodup) :
    (∀ r ∈ db.requirements, isDueRequirement now r = true →
        (schedulePeriodicScraping now oracle s e db).2.count r.id = 1)
    ∧ (∀ r ∈ db.requirements, isDueRequirement now r = false →
        (schedulePeriodicScraping now oracle s e db).2.count r.id = 0)
    ∧ (∀ i ∈ (schedulePeriodicScraping now oracle s e db).2,
        ∃ r, r ∈ db.requirements ∧ r.id = i ∧ isDueRequirement now r = true) := by
  rw [schedule_trace]
  refine ⟨?_, ?_, ?_⟩
  · intro r hr hdue
    have hsub : ((db.requirements.filter (isDueRequirement now)).map (fun r => r.id)).Sublist
        (db.requirements.map (fun r => r.id)) :=
      (List.filter_sublist db.requirements).map (fun r => r.id)
    have hnd := List.Nodup.sublist hsub hnodup
    have hmem : r.id ∈ (db.requirements.filter (isDueRequirement now)).map (fun r => r.id) :=
      List.mem_map.mpr ⟨r, List.mem_filter.mpr ⟨hr, hdue⟩, rfl⟩
    exact List.count_eq_one_of_mem hnd hmem
  · intro r hr hdue
    apply List.count_eq_zero.mpr
    intro hmem
    obtain ⟨r2, hr2, hid⟩ := List.mem_map.mp hmem
    obtain ⟨hr2mem, hr2due⟩ := List.mem_filter.mp hr2
    have heq : r2 = r := List.inj_on_of_nodup_map hnodup hr2mem hr hid
    rw [heq, hdue] at hr2due
    exact absurd hr2due (by simp)
  · intro i hi
    obtain ⟨r, hr, rfl⟩ := List.mem_map.mp hi
    obtain ⟨hrm, hrd⟩ := List.mem_filter.mp hr
    exact ⟨r, hrm, rfl, hrd⟩

/-- Witness for C8: a two-requirement store with one due and one not-yet-due
requirement at time 1000. -/
theorem scheduler_pass_witness :
    (schedulePeriodicScraping 1000 (fun _ => .failure) 1000 1000 dbSched).2.count "due1" = 1
    ∧ (schedulePeriodicScraping 1000 (fun _ => .failure) 1000 1000 dbSched).2.count "idle1"
        = 0 := by
  have h := scheduler_pass_triggers_due_exactly_once dbSched 1000 (fun _ => .failure)
    1000 1000 (by decide)
  exact ⟨h.1 reqDue (by decide) (by decide), h.2.1 reqIdle (by decide) (by decide)⟩

/-- C9: the trigger writes `last_scraped_at` together with the transition to
`"in_progress"` at the start of the attempt, so after a failed attempt
`last_scraped_at` holds the attempt's start time (and after a successful one
the completion time): it is updated on every attempt, not only on success. -/
theorem trigger_writes_last_scraped_every_attempt (db : DB) (reqId : String)
    (req : Requirement) (s e : Nat) (hfind : findRequirement db reqId = some req) :
    ((findRequirement (triggerScrapingForRequirement reqId .failure s e db) reqId).map
        (fun q => (q.last_scraped_at, q.scraping_status)) = some (some s, "failed"))
    ∧ ∀ cands,
        (findRequirement (triggerScrapingForRequirement reqId (.success cands) s e db)
            reqId).map (fun q => q.last_scraped_at) = some (some e) := by
  constructor
  · rw [trigger_failure_find db reqId req s e hfind]
    rfl
  · intro cands
    rw [trigger_success_find db reqId req cands s e hfind]
    rfl

/-- Witness for C9 on a concrete store: the failed run records start time 7. -/
theorem trigger_writes_last_scraped_witness :
    (findRequirement (triggerScrapingForRequirement "r1" .failure 7 8 dbFix) "r1").map
        (fun q => (q.last_scraped_at, q.scraping_status)) = some (some 7, "failed") :=
  (trigger_writes_last_scraped_every_attempt dbFix "r1" reqFix 7 8 (by decide)).1

/-- C10: with both budget bounds set, a candidate whose price is absent or
unparsed (`price = None`) never matches — the `TypeError` of the comparison
is caught and the predicate returns `False` (the embedding is total) — so
such a candidate is excluded from every matching list of a pass. -/
theorem price_none_never_matches (l : ListingData) (r : Requirement) (lo hi : Int)
    (hmin : r.budget_min = some lo) (_hmax : r.budget_max = some hi)
    (hp : l.price = none) :
    isListingMatchingRequirement l r = false
    ∧ ∀ cands : List ListingData,
        l ∉ cands.filter (fun c => isListingMatchingRequirement c r) := by
  have hm : isListingMatchingRequirement l r = false := by
    simp [isListingMatchingRequirement, hp, hmin]
  refine ⟨hm, ?_⟩
  intro cands hmem
  have hval := (List.mem_filter.mp hmem).2
  rw [hm] at hval
  exact absurd hval (by simp)

/-- Witness for C10: the candidate whose price text did not parse. -/
theorem price_none_never_matches_witness :
    isListingMatchingRequirement candNoPrice reqFix = false :=
  (price_none_never_matches candNoPrice reqFix 30000 50000 rfl rfl rfl).1

end BuySmart
